import Mathlib

/-!
Verification of `crates/brioche-packer/src/autowrap.rs` (brioche-runnable-utils).

This file shallowly embeds the autowrap module: the artifact classifier
(`autowrap_kind`), the script shebang parser (from `autowrap_script`), the
library closure resolver (`collect_all_library_dirs` / `find_library`), the
rewrap stub (`autowrap_rewrap`), the shared-library wrapper
(`autowrap_shared_library`), and the search-path construction of
`autowrap_context`.

External collaborators (the pack codec `brioche_pack`, the ELF parser
`goblin`, the blob store `brioche_resources`, and the filesystem) are
modelled as an abstract environment `Env` of pure functions; theorems hold
for every environment, so they depend only on the control flow of the
embedded source.  Side effects (blob-store writes, file writes) are
modelled as explicit state: the resolver state records the sequence of
`add_named_blob` calls in an `embedded` trace, and file output is a
function update on a `BPath → Option RawBytes` map.
-/

namespace Autowrap

/-- Decidable equality for `Except`, needed to evaluate run results with
`decide`. -/
instance {ε α : Type _} [DecidableEq ε] [DecidableEq α] : DecidableEq (Except ε α) :=
  fun x y =>
    match x, y with
    | .error a, .error b =>
      if h : a = b then .isTrue (congrArg Except.error h)
      else .isFalse (fun hc => h (Except.error.inj hc))
    | .error _, .ok _ => .isFalse (fun hc => Except.noConfusion hc)
    | .ok _, .error _ => .isFalse (fun hc => Except.noConfusion hc)
    | .ok a, .ok b =>
      if h : a = b then .isTrue (congrArg Except.ok h)
      else .isFalse (fun hc => h (Except.ok.inj hc))

/-- Paths (`std::path::PathBuf`) are modelled as lists of components. -/
abbrev BPath := List String

/-- Raw file contents (`Vec<u8>` / `&[u8]`). -/
abbrev RawBytes := List UInt8

/-- The fields of a parsed ELF object (`goblin::elf::Elf`) that autowrap
inspects: the program interpreter, the shared-object flag, and the list of
needed (`DT_NEEDED`) library names. -/
structure Elf where
  interpreter : Option String
  is_lib : Bool
  libraries : List String
deriving DecidableEq

/-- The pack record `brioche_pack::Pack`: the injected metadata record.  Resource paths are
kept as raw byte strings, as in the source (`Vec<u8>` path encoding). -/
inductive Pack where
  | ldLinux (program : RawBytes) (interpreter : RawBytes)
      (library_dirs : List RawBytes) (runtime_library_dirs : List RawBytes)
  | staticPack (library_dirs : List RawBytes)
  | metadata (resource_paths : List RawBytes) (format : String) (meta : RawBytes)
deriving DecidableEq

/-- One entry yielded by `std::fs::read_dir`: whether it is a symlink and
the result of canonicalizing it (`none` models a canonicalize failure). -/
structure DirEntry where
  is_symlink : Bool
  canonical : Option BPath
deriving DecidableEq

/-- Outcome of `std::fs::read_dir`: the `NotFound` error kind, any other
I/O error, or the list of entries. -/
inductive DirResult where
  | notFound
  | ioError
  | found (entries : List DirEntry)
deriving DecidableEq

/-- Abstract environment bundling the external collaborators used by
`autowrap.rs`: `brioche_pack::extract_pack`, `goblin::Object::parse`
(collapsed to `none` on parse failure or non-ELF object), filesystem
queries, `brioche_resources::add_named_blob` (as performed by
`add_named_blob_from`, `none` models failure), path byte
decoding/encoding, `brioche_resources::find_in_resource_dirs` (with the
context's resource-dir set baked in), pack serialization, and directory
reads.  Theorems quantify over all environments. -/
structure Env where
  extractPack : RawBytes → Option Pack
  parseElf : RawBytes → Option Elf
  isFile : BPath → Bool
  isDir : BPath → Bool
  readFile : BPath → Option RawBytes
  addNamedBlob : BPath → Option BPath
  decodePathBytes : RawBytes → Option BPath
  findInResourceDirs : BPath → Option BPath
  encodePathBytes : BPath → Option RawBytes
  encodePack : Pack → RawBytes
  readDir : BPath → DirResult

/-- An environment where every lookup fails; used as a base for concrete
test environments. -/
def envDefault : Env where
  extractPack := fun _ => none
  parseElf := fun _ => none
  isFile := fun _ => false
  isDir := fun _ => false
  readFile := fun _ => none
  addNamedBlob := fun _ => none
  decodePathBytes := fun _ => none
  findInResourceDirs := fun _ => none
  encodePathBytes := fun _ => none
  encodePack := fun _ => []
  readDir := fun _ => .notFound

/-- Struct `DynamicLinkingConfig` from the source (the `HashSet` of skipped
libraries is modelled as a list queried by membership). -/
structure DynamicLinkingConfig where
  skip_libraries : List String
  extra_libraries : List String
  skip_unknown_libraries : Bool
deriving DecidableEq

/-- Struct `SharedLibraryConfig` from the source. -/
structure SharedLibraryConfig where
  dynamic_linking : DynamicLinkingConfig
deriving DecidableEq

/-- Struct `RewrapConfig` from the source (an empty struct). -/
structure RewrapConfig where
deriving DecidableEq

/-- Enum `AutowrapKind` from the source. -/
inductive AutowrapKind where
  | dynamicBinary
  | sharedLibrary
  | script
  | rewrap
deriving DecidableEq

/-! ## Artifact classifier (`autowrap_kind`, lines 214–238) -/

/-- Rust `contents.starts_with(b"#!")` — `#` is byte 35, `!` is byte 33. -/
def startsWithShebang (contents : RawBytes) : Bool :=
  contents.take 2 == [35, 33]

/-- The classifier `autowrap_kind`, as a function of the file bytes (the
source first reads the file at `path`; the classification itself depends
only on the bytes read): a successfully extracted pack means `Rewrap`;
else a leading `#!` means `Script`; else a parsed ELF with an interpreter
means `DynamicBinary`, a parsed ELF marked as a shared object means
`SharedLibrary`, and anything else (including an unparseable ELF) is
`none` (not wrappable, not an error). -/
def autowrap_kind (env : Env) (contents : RawBytes) : Option AutowrapKind :=
  if (env.extractPack contents).isSome then some .rewrap
  else if startsWithShebang contents then some .script
  else
    match env.parseElf contents with
    | none => none
    | some program_object =>
      if program_object.interpreter.isSome then some .dynamicBinary
      else if program_object.is_lib then some .sharedLibrary
      else none

/-! ## Shebang parsing (`autowrap_script`, lines 435–454) -/

/-- Rust `char::is_whitespace` (the Unicode `White_Space` property), used
by `str::trim`. -/
def isRustWhitespace (c : Char) : Bool :=
  ([0x09, 0x0A, 0x0B, 0x0C, 0x0D, 0x20, 0x85, 0xA0, 0x1680,
    0x2000, 0x2001, 0x2002, 0x2003, 0x2004, 0x2005, 0x2006, 0x2007,
    0x2008, 0x2009, 0x200A, 0x2028, 0x2029, 0x202F, 0x205F, 0x3000] :
    List UInt32).contains c.val

/-- Rust `char::is_ascii_whitespace`: space, `\t`, `\n`, form feed, `\r`
(notably not vertical tab). -/
def isRustAsciiWhitespace (c : Char) : Bool :=
  ([0x09, 0x0A, 0x0C, 0x0D, 0x20] : List UInt32).contains c.val

/-- Rust `str::trim` on a character list. -/
def trimChars (cs : List Char) : List Char :=
  ((cs.dropWhile isRustWhitespace).reverse.dropWhile isRustWhitespace).reverse

/-- Rust `str::split_once(pred)`: split at the first character satisfying
`p`, returning the parts before and after it, or `none` if no character
matches. -/
def splitOnceBy (p : Char → Bool) : List Char → Option (List Char × List Char)
  | [] => none
  | c :: cs =>
    if p c then some ([], cs)
    else
      match splitOnceBy p cs with
      | none => none
      | some (a, b) => some (c :: a, b)

/-- Rust `command_path.split(|c| matches!(c, '/' | '\\')).last()`: the
suffix after the last path separator. -/
def lastSegment (cs : List Char) : List Char :=
  (cs.reverse.takeWhile (fun c => !(c == '/' || c == '\\'))).reverse

/-- Lines 438–445 of the source: trim the shebang line, split it once on
the first ASCII whitespace into a command path and the remaining argument
(both trimmed), and keep the argument only if non-empty. -/
def shebangSplit (line : String) : String × Option String :=
  let l := trimChars line.toList
  let parts :=
    match splitOnceBy isRustAsciiWhitespace l with
    | some (command_path, arg) => (trimChars command_path, trimChars arg)
    | none => (l, [])
  (String.mk parts.1, if parts.2.isEmpty then none else some (String.mk parts.2))

/-- The basename of the command path (split on `/` and `\`, last part). -/
def commandBasename (s : String) : String :=
  String.mk (lastSegment s.toList)

/-- Errors raised while parsing a script's shebang line. -/
inductive ScriptError where
  | envArgExpected
deriving DecidableEq

/-- Lines 438–454 of the source: resolve the shebang line to the command
name to search for and the optional single argument.  If the command
basename is literally `env`, the argument becomes the command name and the
argument is dropped; a missing argument is then a fatal
`expected argument for env script` error. -/
def parseShebangLine (line : String) : Except ScriptError (String × Option String) :=
  let parts := shebangSplit line
  let command_name := commandBasename parts.1
  if command_name = "env" then
    match parts.2 with
    | none => .error .envArgExpected
    | some a => .ok (a, none)
  else .ok (command_name, parts.2)

/-- The front of `autowrap_script` (lines 425–454) as a function of the
script file's contents: a file shorter than two bytes or not starting with
`#!` is "did not wrap" (`ok none`); otherwise the first line after `#!`
(`BufRead::read_line` stops at the first newline) is parsed. -/
def autowrap_script_shebang (contents : String) :
    Except ScriptError (Option (String × Option String)) :=
  match contents.toList with
  | c1 :: c2 :: rest =>
    if c1 == '#' && c2 == '!' then
      match parseShebangLine (String.mk (rest.takeWhile (fun c => c != '\n'))) with
      | .error e => .error e
      | .ok r => .ok (some r)
    else .ok none
  | _ => .ok none

example : autowrap_script_shebang "#!/bin/sh -e\necho hi" = .ok (some ("sh", some "-e")) := by
  decide

example : autowrap_script_shebang "#!/bin/true\n" = .ok (some ("true", none)) := by
  decide

example : autowrap_script_shebang "#!/usr/bin/env python3 -u\nmain()" =
    .ok (some ("python3 -u", none)) := by
  decide

example : autowrap_script_shebang "#!/usr/bin/env\necho hi" = .error .envArgExpected := by
  decide

/-! ## Library closure resolver (`collect_all_library_dirs`, lines 564–673) -/

/-- Errors from the closure resolver: an unresolvable library (fatal
unless `skip_unknown_libraries`), a failed `.parent()` on a resource path,
a failed `add_named_blob_from`, and exhaustion of the explicit fuel bound
(the Rust loop has no such bound; theorems quantify over all fuels). -/
inductive CollectError where
  | libraryNotFound (name : String)
  | resourceParentMissing
  | addBlobFailed (path : BPath)
  | outOfFuel
deriving DecidableEq

/-- The resolver-local mutable state of `collect_all_library_dirs`: the
FIFO work queue `needed_libraries`, the live `library_search_paths`, the
output list `resource_library_dirs`, the dedup sets `found_libraries` and
`found_library_dirs` (modelled as lists queried by membership), and a
trace `embedded` of every `add_named_blob_from` call made for a library
(name and returned resource path) — the model of the blob-store side
effect. -/
structure CollectState where
  needed : List String
  library_search_paths : List BPath
  resource_library_dirs : List BPath
  found_libraries : List String
  found_library_dirs : List BPath
  embedded : List (String × BPath)
deriving DecidableEq

/-- Function `find_library` (lines 661–673): first search path containing the
library wins. -/
def find_library (env : Env) (library_search_paths : List BPath) (library_name : String) :
    Option BPath :=
  match library_search_paths with
  | [] => none
  | path :: rest =>
    if env.isFile (path ++ [library_name]) then some (path ++ [library_name])
    else find_library env rest library_name

/-- Lines 637–641: which packs contribute embedded library directories to
the live search path — `LdLinux` and `Static` contribute their
`library_dirs`, `Metadata` contributes nothing. -/
def packLibraryDirs : Pack → List RawBytes
  | .ldLinux _ _ library_dirs _ => library_dirs
  | .staticPack library_dirs => library_dirs
  | .metadata _ _ _ => []

/-- Lines 643–654: each embedded library-dir byte string is decoded to a
path and looked up in the context's resource directories; failures of
either step skip the entry (`continue`), successes extend the live search
path. -/
def packExtraSearchDirs (env : Env) (pack : Pack) : List BPath :=
  (packLibraryDirs pack).filterMap fun dir =>
    (env.decodePathBytes dir).bind env.findInResourceDirs

/-- Lines 593–615: unless the library is in the skip set, add its bytes to
the resource directory (recorded in the `embedded` trace), take the
resource path's parent directory, and append that directory to the output
list if it has not been emitted before. -/
def embedLibrary (env : Env) (cfg : DynamicLinkingConfig) (library_name : String)
    (library_path : BPath) (st : CollectState) : Except CollectError CollectState :=
  if library_name ∈ cfg.skip_libraries then .ok st
  else
    match env.addNamedBlob library_path with
    | none => .error (.addBlobFailed library_path)
    | some resource_path =>
      if resource_path.isEmpty then .error .resourceParentMissing
      else
        let dir := resource_path.dropLast
        let st1 := { st with embedded := st.embedded ++ [(library_name, resource_path)] }
        if dir ∈ st1.found_library_dirs then .ok st1
        else .ok { st1 with
          found_library_dirs := dir :: st1.found_library_dirs,
          resource_library_dirs := st1.resource_library_dirs ++ [dir] }

/-- Lines 617–655: re-read the library's bytes; on a parseable ELF enqueue
its needed libraries at the back of the work queue; if the bytes also
carry a pack, extend the live search paths with the pack's resolvable
library directories.  Every failure is a silent `continue`. -/
def transitiveStep (env : Env) (library_path : BPath) (st : CollectState) : CollectState :=
  match env.readFile library_path with
  | none => st
  | some library_file =>
    match env.parseElf library_file with
    | none => st
    | some library_elf =>
      let st1 := { st with needed := st.needed ++ library_elf.libraries }
      match env.extractPack library_file with
      | none => st1
      | some library_pack =>
        { st1 with library_search_paths :=
            st1.library_search_paths ++ packExtraSearchDirs env library_pack }

/-- One iteration of the `while let` loop (lines 574–656) for a popped
library name, on a state whose queue has already been advanced: skip an
already-found name; search for the library (an unresolved name is dropped
or fatal depending on `skip_unknown_libraries`); mark it found; embed it
unless skipped; expand its transitive dependencies. -/
def collectIter (env : Env) (cfg : DynamicLinkingConfig) (library_name : String)
    (st : CollectState) : Except CollectError CollectState :=
  if library_name ∈ st.found_libraries then .ok st
  else
    match find_library env st.library_search_paths library_name with
    | none =>
      if cfg.skip_unknown_libraries then .ok st
      else .error (.libraryNotFound library_name)
    | some library_path =>
      let st1 := { st with found_libraries := library_name :: st.found_libraries }
      match embedLibrary env cfg library_name library_path st1 with
      | .error e => .error e
      | .ok st2 => .ok (transitiveStep env library_path st2)

/-- The `while let Some(library_name) = needed_libraries.pop_front()` loop,
bounded by fuel (the source loop has no bound; every theorem holds for
every fuel). -/
def collectLoop (env : Env) (cfg : DynamicLinkingConfig) :
    Nat → CollectState → Except CollectError CollectState
  | 0, st => if st.needed.isEmpty then .ok st else .error .outOfFuel
  | fuel + 1, st =>
    match st.needed with
    | [] => .ok st
    | library_name :: rest =>
      match collectIter env cfg library_name { st with needed := rest } with
      | .error e => .error e
      | .ok st2 => collectLoop env cfg fuel st2

/-- The initial resolver state (lines 569–572): the live search paths
start as the context's link-dependency library paths and every other
collection starts empty. -/
def initCollectState (library_search_paths : List BPath) (needed : List String) :
    CollectState where
  needed := needed
  library_search_paths := library_search_paths
  resource_library_dirs := []
  found_libraries := []
  found_library_dirs := []
  embedded := []

/-- Function `collect_all_library_dirs` (lines 564–659): run the loop from the
initial state and return `resource_library_dirs`. -/
def collect_all_library_dirs (env : Env) (cfg : DynamicLinkingConfig)
    (library_search_paths : List BPath) (needed : List String) (fuel : Nat) :
    Except CollectError (List BPath) :=
  (collectLoop env cfg fuel (initCollectState library_search_paths needed)).map
    (·.resource_library_dirs)

/-! ## Rewrap stub (`autowrap_rewrap`, lines 552–562) -/

/-- Fatal errors surfaced by the wrappers (`eyre::Result` failures). -/
inductive WrapError where
  | rewrapNotImplemented (source_path : BPath)
  | readFailed
  | notElf
  | collectFailed (e : CollectError)
  | invalidPathBytes
  | openFailed
deriving DecidableEq

/-- Function `autowrap_rewrap`: with no rewrap policy configured it reports "did
not wrap" (`Ok(false)`, like every other wrapper's missing-policy path);
with a policy configured it always fails with the
`rewrapping is not yet implemented` error. -/
def autowrap_rewrap (rewrap : Option RewrapConfig) (source_path : BPath) :
    Except WrapError Bool :=
  match rewrap with
  | none => .ok false
  | some _ => .error (.rewrapNotImplemented source_path)

/-! ## Shared-library wrapper (`autowrap_shared_library`, lines 350–414) -/

/-- Lines 293–311 and 369–387: the initial work queue is the ELF's
declared needed libraries minus the skip set, followed by the configured
extra libraries. -/
def neededLibraries (elf : Elf) (cfg : DynamicLinkingConfig) : List String :=
  elf.libraries.filter (fun l => decide (l ∉ cfg.skip_libraries)) ++ cfg.extra_libraries

/-- Line 395–401: encode each resolved library directory as path bytes;
any encoding failure is the fatal `invalid UTF-8 in path` error. -/
def encodeLibraryDirs (env : Env) : List BPath → Option (List RawBytes)
  | [] => some []
  | d :: ds =>
    match env.encodePathBytes d with
    | none => none
    | some b => (encodeLibraryDirs env ds).map (b :: ·)

/-- Modelled from the spec: `brioche_pack::inject_pack` lives in the
`brioche-pack` crate, which is not part of the sources here.  Per §6 of
the spec its contract is that it "appends/patches in place": the open
file's existing bytes are kept and the serialized pack is appended. -/
def inject_pack (env : Env) (file : RawBytes) (pack : Pack) : RawBytes :=
  file ++ env.encodePack pack

/-- Point update of the modelled filesystem (creating or truncating the
file at `p`). -/
def updateFs (fs : BPath → Option RawBytes) (p : BPath) (v : RawBytes) :
    BPath → Option RawBytes :=
  fun q => if q = p then some v else fs q

/-- Function `autowrap_shared_library`: with no shared-library policy, "did not
wrap"; otherwise parse the source ELF, resolve the library closure, build
a `Static` pack, and write the output — appending to the file itself when
the output path equals the source path (`OpenOptions::append`), and
otherwise creating the output, copying the original bytes into it, and
injecting the pack there.  Returns the wrap verdict and the updated
filesystem. -/
def autowrap_shared_library (env : Env) (config : Option SharedLibraryConfig)
    (fs : BPath → Option RawBytes) (library_search_paths : List BPath)
    (source_path output_path : BPath) (fuel : Nat) :
    Except WrapError (Bool × (BPath → Option RawBytes)) :=
  match config with
  | none => .ok (false, fs)
  | some shared_library_config =>
    match fs source_path with
    | none => .error .readFailed
    | some contents =>
      match env.parseElf contents with
      | none => .error .notElf
      | some program_object =>
        match collect_all_library_dirs env shared_library_config.dynamic_linking
            library_search_paths
            (neededLibraries program_object shared_library_config.dynamic_linking) fuel with
        | .error e => .error (.collectFailed e)
        | .ok library_dir_resource_paths =>
          match encodeLibraryDirs env library_dir_resource_paths with
          | none => .error .invalidPathBytes
          | some library_dirs =>
            let pack := Pack.staticPack library_dirs
            if source_path = output_path then
              match fs output_path with
              | none => .error .openFailed
              | some existing =>
                .ok (true, updateFs fs output_path (inject_pack env existing pack))
            else
              .ok (true, updateFs fs output_path (inject_pack env contents pack))

/-! ## Context search paths (`autowrap_context`, lines 100–195) -/

/-- Fatal errors while building the context's search-path lists. -/
inductive CtxError where
  | readDirFailed
  | notSymlink
  | canonicalizeFailed
deriving DecidableEq

/-- The marker directory `<root>/brioche-env.d/env/<var>`. -/
def briocheEnvDir (root : BPath) (var : String) : BPath :=
  root ++ ["brioche-env.d", "env", var]

/-- Lines 134–147 / 163–176: every entry under a marker directory must be
a symlink (else fatal) and is canonicalized (failure fatal); the canonical
targets are collected in directory order. -/
def entriesPaths : List DirEntry → Except CtxError (List BPath)
  | [] => .ok []
  | e :: es =>
    if e.is_symlink then
      match e.canonical with
      | none => .error .canonicalizeFailed
      | some p =>
        match entriesPaths es with
        | .error err => .error err
        | .ok ps => .ok (p :: ps)
    else .error .notSymlink

/-- The contribution of a single link-dependency root to the `var`
(`LIBRARY_PATH` or `PATH`) search list: a missing marker directory
contributes nothing (`continue`), any other read failure is fatal, and
otherwise the canonicalized symlink targets are contributed in order. -/
def rootEnvContrib (env : Env) (var : String) (root : BPath) :
    Except CtxError (List BPath) :=
  match env.readDir (briocheEnvDir root var) with
  | .notFound => .ok []
  | .ioError => .error .readDirFailed
  | .found entries => entriesPaths entries

/-- The accumulating loop over link-dependency roots shared by the
`LIBRARY_PATH` loop (lines 116–148) and the `PATH` loop (lines 150–177):
each root's contribution is appended to the accumulated list. -/
def envPathsAux (env : Env) (var : String) :
    List BPath → List BPath → Except CtxError (List BPath)
  | [], acc => .ok acc
  | root :: roots, acc =>
    match rootEnvContrib env var root with
    | .error e => .error e
    | .ok ps => envPathsAux env var roots (acc ++ ps)

/-- Field `link_dependency_library_paths` of `autowrap_context` (lines
114–148). -/
def link_dependency_library_paths (env : Env) (roots : List BPath) :
    Except CtxError (List BPath) :=
  envPathsAux env "LIBRARY_PATH" roots []

/-- Lines 179–185: after all roots' `env/PATH` entries, each root's
`bin` directory is appended when it is a directory. -/
def binDirs (env : Env) : List BPath → List BPath
  | [] => []
  | root :: roots =>
    (if env.isDir (root ++ ["bin"]) then [root ++ ["bin"]] else []) ++ binDirs env roots

/-- Field `link_dependency_paths` of `autowrap_context` (lines 150–185): the
`env/PATH` loop over all roots, then the `bin` loop over all roots. -/
def link_dependency_paths (env : Env) (roots : List BPath) :
    Except CtxError (List BPath) :=
  match envPathsAux env "PATH" roots [] with
  | .error e => .error e
  | .ok ps => .ok (ps ++ binDirs env roots)

/-- Stated from the spec's words for claim C8 ("order is preserved:
earlier roots take search precedence over later roots", for the command
search list "including roots' bin directories"): each root contributes its
`env/PATH` targets followed by its own `bin` directory, and whole-root
contributions are concatenated in root order.  To be compared with
`link_dependency_paths`. -/
def specOrderedCommandPaths (env : Env) : List BPath → Except CtxError (List BPath)
  | [] => .ok []
  | root :: roots =>
    match rootEnvContrib env "PATH" root with
    | .error e => .error e
    | .ok ps =>
      match specOrderedCommandPaths env roots with
      | .error e => .error e
      | .ok rest =>
        .ok (ps ++ (if env.isDir (root ++ ["bin"]) then [root ++ ["bin"]] else []) ++ rest)

/-- Stated from the spec's words: the root-by-root, in-root-order
concatenation of marker-directory contributions for a single variable. -/
def specOrderedEnvPaths (env : Env) (var : String) : List BPath → Except CtxError (List BPath)
  | [] => .ok []
  | root :: roots =>
    match rootEnvContrib env var root with
    | .error e => .error e
    | .ok ps =>
      match specOrderedEnvPaths env var roots with
      | .error e => .error e
      | .ok rest => .ok (ps ++ rest)

/-! ## Claim C2: the rewrap stub -/

/-- C2, counterexample: the claim says the rewrap wrapper fails fatally
"regardless of whether a rewrap policy is configured" and "never returns
the non-fatal did-not-wrap outcome".  But with no rewrap policy the source
(line 557–559) takes the same missing-policy path as every other wrapper
and returns `Ok(false)` — the non-fatal did-not-wrap outcome. -/
theorem c2_rewrap_counterexample :
    autowrap_rewrap none ["bin", "prog"] = .ok false ∧
    autowrap_rewrap none ["bin", "prog"] ≠
      .error (.rewrapNotImplemented ["bin", "prog"]) := by
  decide

/-- C2, amended: once a rewrap policy is configured, rewrap always fails
fatally with the "rewrapping is not yet implemented" error naming the
source path; with no rewrap policy configured it returns the non-fatal
did-not-wrap outcome. -/
theorem c2_rewrap_amended (c : RewrapConfig) (source_path : BPath) :
    autowrap_rewrap (some c) source_path = .error (.rewrapNotImplemented source_path) ∧
    autowrap_rewrap none source_path = .ok false :=
  ⟨rfl, rfl⟩

/-! ## Claim C3: the spec's three shebang test cases -/

/-- C3, counterexample: the claim says `#!/usr/bin/env python3 -u`
resolves command name `python3`.  The source splits the shebang line only
once, at the first whitespace, so the whole remainder `python3 -u` becomes
the `env` argument and hence the command name. -/
theorem c3_shebang_counterexample :
    autowrap_script_shebang "#!/usr/bin/env python3 -u\nmain()" =
      .ok (some ("python3 -u", none)) ∧
    autowrap_script_shebang "#!/usr/bin/env python3 -u\nmain()" ≠
      .ok (some ("python3", none)) := by
  decide

/-- C3, amended: `#!/usr/bin/env python3 -u` resolves command name
`python3 -u` — the entire whitespace-split remainder after `env`, not
further split — with no leftover argument; `#!/bin/sh -e` resolves command
name `sh` with argument `-e`; `#!/bin/true` resolves command name `true`
with no argument. -/
theorem c3_shebang_amended :
    autowrap_script_shebang "#!/usr/bin/env python3 -u\nmain()" =
      .ok (some ("python3 -u", none)) ∧
    autowrap_script_shebang "#!/bin/sh -e\nmain" = .ok (some ("sh", some "-e")) ∧
    autowrap_script_shebang "#!/bin/true\nmain" = .ok (some ("true", none)) := by
  decide

/-! ## Claim C4: the classifier's precedence order -/

/-- C4: `autowrap_kind` is a function of the bytes (determinism is
function-ness; its codomain `Option AutowrapKind` is exactly the five
verdicts) decided in the fixed precedence order: extractable pack →
`Rewrap` (even when the bytes also start with `#!`); else leading `#!` →
`Script`; else an unparseable or non-ELF object → `none` (not an error);
else ELF with an interpreter → `DynamicBinary`; else ELF marked shared
object → `SharedLibrary`; else `none`. -/
theorem c4_classifier_precedence (env : Env) (contents : RawBytes) (elf : Elf) :
    ((env.extractPack contents).isSome = true →
      autowrap_kind env contents = some .rewrap) ∧
    (env.extractPack contents = none → startsWithShebang contents = true →
      autowrap_kind env contents = some .script) ∧
    (env.extractPack contents = none → startsWithShebang contents = false →
      env.parseElf contents = none → autowrap_kind env contents = none) ∧
    (env.extractPack contents = none → startsWithShebang contents = false →
      env.parseElf contents = some elf → elf.interpreter.isSome = true →
      autowrap_kind env contents = some .dynamicBinary) ∧
    (env.extractPack contents = none → startsWithShebang contents = false →
      env.parseElf contents = some elf → elf.interpreter = none → elf.is_lib = true →
      autowrap_kind env contents = some .sharedLibrary) ∧
    (env.extractPack contents = none → startsWithShebang contents = false →
      env.parseElf contents = some elf → elf.interpreter = none → elf.is_lib = false →
      autowrap_kind env contents = none) := by
  refine ⟨?_, ?_, ?_, ?_, ?_, ?_⟩ <;> intros <;> simp_all [autowrap_kind]

/-- A concrete environment whose pack extraction always succeeds, to
exercise the pack-before-shebang precedence. -/
def envC4 : Env := { envDefault with extractPack := fun _ => some (.staticPack []) }

/-- C4, witness: bytes that carry a pack and also start with `#!` (bytes
35, 33) classify as `Rewrap`. -/
theorem c4_classifier_precedence_witness :
    autowrap_kind envC4 [35, 33, 120] = some .rewrap :=
  (c4_classifier_precedence envC4 [35, 33, 120] ⟨none, false, []⟩).1 (by decide)

/-! ## Claim C9: `env` shebang without an argument is fatal -/

/-- C9: whenever the shebang line's command basename is `env` with no
(non-empty) argument, parsing fails with the "expected argument for env
script" error, and hence the script wrapper fails fatally rather than
wrapping or reporting did-not-wrap. -/
theorem c9_env_no_arg (line : String) (contents : String) (rest : List Char) :
    (commandBasename (shebangSplit line).1 = "env" → (shebangSplit line).2 = none →
      parseShebangLine line = .error .envArgExpected) ∧
    (contents.toList = '#' :: '!' :: rest →
      commandBasename
        (shebangSplit (String.mk (rest.takeWhile (fun c => c != '\n')))).1 = "env" →
      (shebangSplit (String.mk (rest.takeWhile (fun c => c != '\n')))).2 = none →
      autowrap_script_shebang contents = .error .envArgExpected) := by
  have hline : ∀ l : String, commandBasename (shebangSplit l).1 = "env" →
      (shebangSplit l).2 = none → parseShebangLine l = .error .envArgExpected := by
    intro l h1 h2
    simp [parseShebangLine, h1, h2]
  refine ⟨hline line, ?_⟩
  intro hc h1 h2
  unfold autowrap_script_shebang
  rw [hc]
  simp [hline _ h1 h2]

/-- C9, witness: a script whose first line is exactly `#!/usr/bin/env`
fails with the env-argument error. -/
theorem c9_env_no_arg_witness :
    parseShebangLine "/usr/bin/env" = .error .envArgExpected ∧
    autowrap_script_shebang "#!/usr/bin/env\necho hi" = .error .envArgExpected := by
  have h := c9_env_no_arg "/usr/bin/env" "#!/usr/bin/env\necho hi"
    (String.toList "/usr/bin/env\necho hi")
  exact ⟨h.1 (by decide) (by decide), h.2 (by decide) (by decide) (by decide)⟩

/-! ## Claim C10: which packs extend the live search path -/

/-- C10: only `LdLinux` and `Static` packs contribute their embedded
library directories to the live search path; a `Metadata` pack contributes
nothing; a directory whose bytes fail to decode as a path or that is not
found in the resource-directory set contributes nothing (the `filterMap`
drops it silently instead of erring); and a packed resolved library
extends the resolver's live `library_search_paths` (with the output
`resource_library_dirs` untouched — only `needed` and
`library_search_paths` change). -/
theorem c10_pack_search_dirs (env : Env) (resource_paths : List RawBytes) (fmt : String)
    (meta : RawBytes) (program interpreter : RawBytes)
    (library_dirs runtime_library_dirs : List RawBytes)
    (library_path : BPath) (st : CollectState) (library_file : RawBytes) (elf : Elf)
    (pack : Pack) :
    packExtraSearchDirs env (.metadata resource_paths fmt meta) = [] ∧
    packExtraSearchDirs env (.ldLinux program interpreter library_dirs runtime_library_dirs) =
      library_dirs.filterMap
        (fun d => (env.decodePathBytes d).bind env.findInResourceDirs) ∧
    packExtraSearchDirs env (.staticPack library_dirs) =
      library_dirs.filterMap
        (fun d => (env.decodePathBytes d).bind env.findInResourceDirs) ∧
    (env.readFile library_path = some library_file →
      env.parseElf library_file = some elf →
      env.extractPack library_file = some pack →
      transitiveStep env library_path st =
        { st with needed := st.needed ++ elf.libraries,
                  library_search_paths :=
                    st.library_search_paths ++ packExtraSearchDirs env pack }) := by
  refine ⟨rfl, rfl, rfl, ?_⟩
  intro h1 h2 h3
  simp [transitiveStep, h1, h2, h3]

/-- A concrete environment where a resolved library's bytes parse as an
ELF needing `libd.so` and carry a `Static` pack with one decodable,
findable library directory. -/
def envC10 : Env := { envDefault with
  readFile := fun _ => some [7],
  parseElf := fun _ => some ⟨none, true, ["libd.so"]⟩,
  extractPack := fun _ => some (.staticPack [[47]]),
  decodePathBytes := fun _ => some ["rd"],
  findInResourceDirs := fun p => some ("res" :: p) }

/-- A concrete resolver state for the C10 witness. -/
def stC10 : CollectState := ⟨["x"], [["sp"]], [], [], [], []⟩

/-- C10, witness: the packed library extends only `needed` and the live
search path. -/
theorem c10_pack_search_dirs_witness :
    transitiveStep envC10 ["l"] stC10 =
      { stC10 with needed := stC10.needed ++ ["libd.so"],
                   library_search_paths :=
                     stC10.library_search_paths ++
                       packExtraSearchDirs envC10 (Pack.staticPack [[47]]) } :=
  (c10_pack_search_dirs envC10 [] "" [] [] [] [] [] ["l"] stC10 [7]
    ⟨none, true, ["libd.so"]⟩ (Pack.staticPack [[47]])).2.2.2 rfl rfl rfl

/-! ## Resolver invariants (for claims C1 and C5) -/

/-- The dedup invariant of the resolver state: the output list has no
duplicates and only contains emitted directories; the embedded-library
trace embeds no name twice, embeds only names already marked found, and
embeds no name from the skip set. -/
def CollectInv (cfg : DynamicLinkingConfig) (st : CollectState) : Prop :=
  st.resource_library_dirs.Nodup ∧
  (∀ d ∈ st.resource_library_dirs, d ∈ st.found_library_dirs) ∧
  (st.embedded.map Prod.fst).Nodup ∧
  (∀ n ∈ st.embedded.map Prod.fst, n ∈ st.found_libraries) ∧
  (∀ n ∈ st.embedded.map Prod.fst, n ∉ cfg.skip_libraries)

/-- The transitive-dependency step touches only the work queue and the
live search paths. -/
theorem transitiveStep_fields (env : Env) (library_path : BPath) (st : CollectState) :
    (transitiveStep env library_path st).resource_library_dirs =
      st.resource_library_dirs ∧
    (transitiveStep env library_path st).embedded = st.embedded ∧
    (transitiveStep env library_path st).found_libraries = st.found_libraries ∧
    (transitiveStep env library_path st).found_library_dirs = st.found_library_dirs := by
  rcases hr : env.readFile library_path with _ | library_file
  · simp [transitiveStep, hr]
  · rcases hp : env.parseElf library_file with _ | library_elf
    · simp [transitiveStep, hr, hp]
    · rcases hx : env.extractPack library_file with _ | library_pack
      · simp [transitiveStep, hr, hp, hx]
      · simp [transitiveStep, hr, hp, hx]

/-- The embed step preserves the dedup invariant, provided the library was
just marked found and had never been embedded before. -/
theorem embedLibrary_inv (env : Env) (cfg : DynamicLinkingConfig) (library_name : String)
    (library_path : BPath) (st st2 : CollectState)
    (hInv : CollectInv cfg st)
    (hnemb : library_name ∉ st.embedded.map Prod.fst)
    (hfound : library_name ∈ st.found_libraries)
    (h : embedLibrary env cfg library_name library_path st = .ok st2) :
    CollectInv cfg st2 := by
  obtain ⟨h1, h2, h3, h4, h5⟩ := hInv
  simp only [embedLibrary] at h
  by_cases hskip : library_name ∈ cfg.skip_libraries
  · rw [if_pos hskip] at h
    simp only [Except.ok.injEq] at h
    subst h
    exact ⟨h1, h2, h3, h4, h5⟩
  · rw [if_neg hskip] at h
    cases hb : env.addNamedBlob library_path with
    | none => simp [hb] at h
    | some resource_path =>
      simp only [hb] at h
      by_cases he : resource_path.isEmpty
      · rw [if_pos he] at h; exact absurd h (by simp)
      · rw [if_neg he] at h
        have hemb3 : ((st.embedded ++ [(library_name, resource_path)]).map Prod.fst).Nodup := by
          simp only [List.map_append, List.map_cons, List.map_nil]
          rw [List.nodup_append]
          exact ⟨h3, List.nodup_singleton _, by
            intro a ha hb2
            simp only [List.mem_singleton] at hb2
            subst hb2
            exact hnemb ha⟩
        have hemb4 : ∀ n ∈ (st.embedded ++ [(library_name, resource_path)]).map Prod.fst,
            n ∈ st.found_libraries := by
          intro n hn
          simp only [List.map_append, List.map_cons, List.map_nil, List.mem_append,
            List.mem_singleton] at hn
          rcases hn with hn | hn
          · exact h4 n hn
          · subst hn; exact hfound
        have hemb5 : ∀ n ∈ (st.embedded ++ [(library_name, resource_path)]).map Prod.fst,
            n ∉ cfg.skip_libraries := by
          intro n hn
          simp only [List.map_append, List.map_cons, List.map_nil, List.mem_append,
            List.mem_singleton] at hn
          rcases hn with hn | hn
          · exact h5 n hn
          · subst hn; exact hskip
        by_cases hd : resource_path.dropLast ∈ st.found_library_dirs
        · rw [if_pos hd] at h
          simp only [Except.ok.injEq] at h
          subst h
          exact ⟨h1, h2, hemb3, hemb4, hemb5⟩
        · rw [if_neg hd] at h
          simp only [Except.ok.injEq] at h
          subst h
          refine ⟨?_, ?_, hemb3, hemb4, hemb5⟩
          · rw [List.nodup_append]
            exact ⟨h1, List.nodup_singleton _, by
              intro a ha hb2
              simp only [List.mem_singleton] at hb2
              subst hb2
              exact hd (h2 _ ha)⟩
          · intro d hdm
            simp only [List.mem_append, List.mem_singleton] at hdm
            rcases hdm with hdm | hdm
            · exact List.mem_cons_of_mem _ (h2 d hdm)
            · subst hdm; exact List.mem_cons_self _ _

/-- One loop iteration preserves the dedup invariant. -/
theorem collectIter_inv (env : Env) (cfg : DynamicLinkingConfig) (library_name : String)
    (st st2 : CollectState) (hInv : CollectInv cfg st)
    (h : collectIter env cfg library_name st = .ok st2) : CollectInv cfg st2 := by
  simp only [collectIter] at h
  by_cases hf : library_name ∈ st.found_libraries
  · rw [if_pos hf] at h
    simp only [Except.ok.injEq] at h
    subst h
    exact hInv
  · rw [if_neg hf] at h
    cases hfind : find_library env st.library_search_paths library_name with
    | none =>
      simp only [hfind] at h
      by_cases hs : cfg.skip_unknown_libraries
      · simp only [if_pos hs, Except.ok.injEq] at h
        subst h
        exact hInv
      · rw [if_neg hs] at h
        exact absurd h (by simp)
    | some library_path =>
      simp only [hfind] at h
      cases hemb : embedLibrary env cfg library_name library_path
          { st with found_libraries := library_name :: st.found_libraries } with
      | error e => simp [hemb] at h
      | ok st3 =>
        simp only [hemb, Except.ok.injEq] at h
        subst h
        obtain ⟨h1, h2, h3, h4, h5⟩ := hInv
        have hInv1 : CollectInv cfg
            { st with found_libraries := library_name :: st.found_libraries } :=
          ⟨h1, h2, h3, fun n hn => List.mem_cons_of_mem _ (h4 n hn), h5⟩
        have hnemb : library_name ∉
            ({ st with found_libraries := library_name :: st.found_libraries } :
              CollectState).embedded.map Prod.fst :=
          fun hm => hf (h4 library_name hm)
        have hInv3 := embedLibrary_inv env cfg library_name library_path _ _ hInv1 hnemb
          (List.mem_cons_self _ _) hemb
        obtain ⟨e1, e2, e3, e4⟩ := transitiveStep_fields env library_path st3
        obtain ⟨g1, g2, g3, g4, g5⟩ := hInv3
        refine ⟨?_, ?_, ?_, ?_, ?_⟩
        · rw [e1]; exact g1
        · rw [e1, e4]; exact g2
        · rw [e2]; exact g3
        · rw [e2, e3]; exact g4
        · rw [e2]; exact g5

/-- The whole loop preserves the dedup invariant. -/
theorem collectLoop_inv (env : Env) (cfg : DynamicLinkingConfig) :
    ∀ (fuel : Nat) (st st1 : CollectState), CollectInv cfg st →
      collectLoop env cfg fuel st = .ok st1 → CollectInv cfg st1 := by
  intro fuel
  induction fuel with
  | zero =>
    intro st st1 hInv h
    simp only [collectLoop] at h
    by_cases he : st.needed.isEmpty
    · rw [if_pos he] at h
      simp only [Except.ok.injEq] at h
      subst h
      exact hInv
    · rw [if_neg he] at h
      exact absurd h (by simp)
  | succ fuel ih =>
    intro st st1 hInv h
    simp only [collectLoop] at h
    cases hq : st.needed with
    | nil =>
      simp only [hq, Except.ok.injEq] at h
      subst h
      exact hInv
    | cons library_name rest =>
      simp only [hq] at h
      cases hit : collectIter env cfg library_name { st with needed := rest } with
      | error e => simp [hit] at h
      | ok st2 =>
        simp only [hit] at h
        have hInv0 : CollectInv cfg { st with needed := rest } := hInv
        exact ih st2 st1 (collectIter_inv env cfg library_name _ st2 hInv0 hit) h

/-! ## Claim C1: the resolver embeds each name and emits each dir at most once -/

/-- C1: for every starting queue, search-path list, configuration,
environment and fuel, a completed run of the resolver loop has embedded
each resolved library name at most once (the trace of
`add_named_blob_from` calls for libraries has no duplicate name) and has
appended each resource directory to the output list at most once, no
matter how many needed-library edges demanded the same name or
directory. -/
theorem c1_collect_dedup (env : Env) (cfg : DynamicLinkingConfig)
    (library_search_paths : List BPath) (needed : List String) (fuel : Nat)
    (st1 : CollectState)
    (h : collectLoop env cfg fuel (initCollectState library_search_paths needed) = .ok st1) :
    (st1.embedded.map Prod.fst).Nodup ∧ st1.resource_library_dirs.Nodup := by
  have hInv : CollectInv cfg (initCollectState library_search_paths needed) := by
    unfold CollectInv initCollectState
    simp
  have hfin := collectLoop_inv env cfg fuel _ st1 hInv h
  exact ⟨hfin.2.2.1, hfin.1⟩

/-- A concrete environment with a single findable library, demanded twice
in the C1 witness run. -/
def envC1 : Env := { envDefault with
  isFile := fun p => p == ["lib", "libc.so"],
  addNamedBlob := fun _ => some ["res", "abc", "libc.so"] }

/-- The final state of the C1 witness run: `libc.so` demanded twice,
embedded once, directory emitted once. -/
def stC1 : CollectState where
  needed := []
  library_search_paths := [["lib"]]
  resource_library_dirs := [["res", "abc"]]
  found_libraries := ["libc.so"]
  found_library_dirs := [["res", "abc"]]
  embedded := [("libc.so", ["res", "abc", "libc.so"])]

/-- C1, witness: a run whose queue demands `libc.so` twice ends with it
embedded once and its directory emitted once. -/
theorem c1_collect_dedup_witness :
    (stC1.embedded.map Prod.fst).Nodup ∧ stC1.resource_library_dirs.Nodup :=
  c1_collect_dedup envC1 ⟨[], [], false⟩ [["lib"]] ["libc.so", "libc.so"] 2 stC1
    (by decide)

/-! ## Claim C5: skipped libraries are traversed but never embedded -/

/-- C5: a library name in the skip set is never embedded as a resource —
in any completed run every embedded library's name is outside the skip
set — yet a skipped library is still searched, marked found, and
traversed: when it resolves, the loop continues through `transitiveStep`
on its path (reading its bytes and enqueueing its ELF's needed names),
which leaves the embedded trace and the output directory list untouched
and only extends the work queue and live search paths. -/
theorem c5_skip_libraries (env : Env) (cfg : DynamicLinkingConfig)
    (library_search_paths : List BPath) (needed : List String) (fuel : Nat)
    (st st1 : CollectState) (library_name : String) (rest : List String)
    (library_path : BPath) :
    (collectLoop env cfg fuel (initCollectState library_search_paths needed) = .ok st1 →
      ∀ p ∈ st1.embedded, p.1 ∉ cfg.skip_libraries) ∧
    (st.needed = library_name :: rest → library_name ∉ st.found_libraries →
      library_name ∈ cfg.skip_libraries →
      find_library env st.library_search_paths library_name = some library_path →
      collectLoop env cfg (fuel + 1) st =
        collectLoop env cfg fuel
          (transitiveStep env library_path
            { st with needed := rest,
                      found_libraries := library_name :: st.found_libraries })) ∧
    ((transitiveStep env library_path st).embedded = st.embedded ∧
     (transitiveStep env library_path st).resource_library_dirs =
       st.resource_library_dirs) := by
  refine ⟨?_, ?_, (transitiveStep_fields env library_path st).2.1,
    (transitiveStep_fields env library_path st).1⟩
  · intro h p hp
    have hInv : CollectInv cfg (initCollectState library_search_paths needed) := by
      unfold CollectInv initCollectState
      simp
    have hfin := collectLoop_inv env cfg fuel _ st1 hInv h
    exact hfin.2.2.2.2 p.1 (List.mem_map_of_mem Prod.fst hp)
  · intro hq hnf hskip hfind
    simp only [collectLoop, hq]
    simp [collectIter, hnf, hfind, embedLibrary, hskip]

/-- A concrete environment for the C5 witness: `libsk.so` is findable,
its bytes parse as an ELF needing `libd.so`. -/
def envC5 : Env := { envDefault with
  isFile := fun p => p == ["lib", "libsk.so"],
  readFile := fun _ => some [7],
  parseElf := fun _ => some ⟨none, true, ["libd.so"]⟩ }

/-- The C5 witness state: the queue demands the skipped `libsk.so`. -/
def stC5 : CollectState := ⟨["libsk.so"], [["lib"]], [], [], [], []⟩

/-- C5, witness: with `libsk.so` in the skip set, the iteration for it
continues into the transitive step without embedding. -/
theorem c5_skip_libraries_witness :
    collectLoop envC5 ⟨["libsk.so"], [], false⟩ 1 stC5 =
      collectLoop envC5 ⟨["libsk.so"], [], false⟩ 0
        (transitiveStep envC5 ["lib", "libsk.so"]
          { stC5 with needed := [], found_libraries := ["libsk.so"] }) :=
  (c5_skip_libraries envC5 ⟨["libsk.so"], [], false⟩ [] [] 0 stC5 stC5 "libsk.so" []
    ["lib", "libsk.so"]).2.1 rfl (by decide) (by decide) (by decide)

/-! ## Claim C6: unresolvable names — skip-unknown vs fatal -/

/-- C6: when the queue's front name is found in no search path, the
iteration silently drops the name and continues (leaving every other part
of the state unchanged, so the name is absent from the output) when
`skip_unknown_libraries` is true, and fails fatally with an error naming
the unresolved library when it is false. -/
theorem c6_skip_unknown (env : Env) (cfg : DynamicLinkingConfig) (fuel : Nat)
    (st : CollectState) (library_name : String) (rest : List String)
    (hq : st.needed = library_name :: rest)
    (hnf : library_name ∉ st.found_libraries)
    (hfind : find_library env st.library_search_paths library_name = none) :
    (cfg.skip_unknown_libraries = true →
      collectLoop env cfg (fuel + 1) st =
        collectLoop env cfg fuel { st with needed := rest }) ∧
    (cfg.skip_unknown_libraries = false →
      collectLoop env cfg (fuel + 1) st = .error (.libraryNotFound library_name)) := by
  constructor <;> intro hs <;>
    · simp only [collectLoop, hq]
      simp [collectIter, hnf, hfind, hs]

/-- C6, witness: with an empty search-path list, `libx.so` is dropped
under the skip-unknown policy and fatal otherwise. -/
theorem c6_skip_unknown_witness :
    collectLoop envDefault ⟨[], [], true⟩ 1 ⟨["libx.so"], [], [], [], [], []⟩ =
      collectLoop envDefault ⟨[], [], true⟩ 0
        { (⟨["libx.so"], [], [], [], [], []⟩ : CollectState) with needed := [] } ∧
    collectLoop envDefault ⟨[], [], false⟩ 1 ⟨["libx.so"], [], [], [], [], []⟩ =
      .error (.libraryNotFound "libx.so") :=
  ⟨(c6_skip_unknown envDefault ⟨[], [], true⟩ 0 ⟨["libx.so"], [], [], [], [], []⟩
      "libx.so" [] rfl (by decide) rfl).1 rfl,
   (c6_skip_unknown envDefault ⟨[], [], false⟩ 0 ⟨["libx.so"], [], [], [], [], []⟩
      "libx.so" [] rfl (by decide) rfl).2 rfl⟩

/-! ## Claim C7: shared-library wrap never disturbs the original bytes -/

/-- C7: in every successful shared-library wrap, the output file is
exactly the original file's bytes followed by the injected pack — the
original bytes are never replaced by the generic stub — and when the
output path differs from the source path the source file is left
byte-for-byte untouched (when they coincide, the same conclusion about
the output path says the existing bytes were preserved and the pack
appended). -/
theorem c7_shared_library_bytes (env : Env) (shared_library_config : SharedLibraryConfig)
    (fs : BPath → Option RawBytes) (library_search_paths : List BPath)
    (source_path output_path : BPath) (fuel : Nat)
    (fs1 : BPath → Option RawBytes) (contents : RawBytes)
    (program_object : Elf) (dirs : List BPath) (library_dirs : List RawBytes)
    (hread : fs source_path = some contents)
    (helf : env.parseElf contents = some program_object)
    (hcollect : collect_all_library_dirs env shared_library_config.dynamic_linking
      library_search_paths
      (neededLibraries program_object shared_library_config.dynamic_linking) fuel =
      .ok dirs)
    (hencode : encodeLibraryDirs env dirs = some library_dirs)
    (h : autowrap_shared_library env (some shared_library_config) fs library_search_paths
      source_path output_path fuel = .ok (true, fs1)) :
    fs1 output_path = some (contents ++ env.encodePack (Pack.staticPack library_dirs)) ∧
    (source_path ≠ output_path → fs1 source_path = fs source_path) := by
  simp only [autowrap_shared_library, hread, helf, hcollect, hencode] at h
  by_cases hpa : source_path = output_path
  · subst hpa
    rw [if_pos rfl] at h
    simp only [hread, Except.ok.injEq, Prod.mk.injEq, true_and] at h
    subst h
    exact ⟨by simp [updateFs, inject_pack], fun hne => absurd rfl hne⟩
  · rw [if_neg hpa] at h
    simp only [Except.ok.injEq, Prod.mk.injEq, true_and] at h
    subst h
    constructor
    · simp [updateFs, inject_pack]
    · intro _
      simp [updateFs, hpa]

/-- A concrete environment for the C7 witness: everything parses as a
dependency-free shared object and pack serialization yields byte 9. -/
def envC7 : Env := { envDefault with
  parseElf := fun _ => some ⟨none, true, []⟩,
  encodePack := fun _ => [9] }

/-- The C7 witness filesystem: one library file of bytes `[1, 2, 3]`. -/
def fsC7 : BPath → Option RawBytes :=
  fun p => if p = ["lib.so"] then some [1, 2, 3] else none

/-- The filesystem after the C7 witness wrap to a distinct output path. -/
def fsC7out : BPath → Option RawBytes :=
  updateFs fsC7 ["out.so"] (inject_pack envC7 [1, 2, 3] (Pack.staticPack []))

/-- C7, witness: wrapping `lib.so` to `out.so` appends the pack after the
original bytes and leaves `lib.so` untouched. -/
theorem c7_shared_library_bytes_witness :
    fsC7out ["out.so"] = some ([1, 2, 3] ++ envC7.encodePack (Pack.staticPack [])) ∧
    fsC7out ["lib.so"] = some [1, 2, 3] := by
  have h := c7_shared_library_bytes envC7 ⟨⟨[], [], false⟩⟩ fsC7 [] ["lib.so"] ["out.so"] 1
    fsC7out [1, 2, 3] ⟨none, true, []⟩ [] [] (by decide) rfl (by decide) rfl rfl
  refine ⟨h.1, ?_⟩
  rw [h.2 (by decide)]
  decide

/-! ## Claim C8: search-path ordering across link-dependency roots -/

/-- A concrete environment for the C8 counterexample: root `r1`
contributes only its `bin` directory, root `r2` contributes one `env/PATH`
symlink target `p2`. -/
def envC8 : Env := { envDefault with
  readDir := fun p =>
    if p = ["r2", "brioche-env.d", "env", "PATH"] then .found [⟨true, some ["p2"]⟩]
    else .notFound,
  isDir := fun p => p == ["r1", "bin"] }

/-- C8, counterexample: with roots `[r1, r2]`, the command search list is
`[p2, r1/bin]` — the later root's `env/PATH` directory precedes the
earlier root's `bin` directory — while the claim's per-root ordering
(`specOrderedCommandPaths`, each root's directories including its `bin`
before any later root's) would give `[r1/bin, p2]`. -/
theorem c8_order_counterexample :
    link_dependency_paths envC8 [["r1"], ["r2"]] = .ok [["p2"], ["r1", "bin"]] ∧
    specOrderedCommandPaths envC8 [["r1"], ["r2"]] = .ok [["r1", "bin"], ["p2"]] ∧
    link_dependency_paths envC8 [["r1"], ["r2"]] ≠
      specOrderedCommandPaths envC8 [["r1"], ["r2"]] := by
  decide

/-- The accumulator loop over roots equals the root-by-root concatenation
of per-root contributions. -/
theorem envPathsAux_append (env : Env) (var : String) :
    ∀ (roots : List BPath) (acc : List BPath),
      envPathsAux env var roots acc =
        (specOrderedEnvPaths env var roots).map (fun ps => acc ++ ps) := by
  intro roots
  induction roots with
  | nil => intro acc; simp [envPathsAux, specOrderedEnvPaths, Except.map]
  | cons root roots ih =>
    intro acc
    simp only [envPathsAux, specOrderedEnvPaths]
    cases rootEnvContrib env var root with
    | error e => simp [Except.map]
    | ok ps =>
      simp only []
      rw [ih]
      cases specOrderedEnvPaths env var roots with
      | error e => simp [Except.map]
      | ok rest => simp [Except.map]

/-- C8, amended: ordering by root holds within each category — the
library search list is exactly the concatenation, in root order, of each
root's `LIBRARY_PATH` marker contributions, and the command search list
is the concatenation, in root order, of each root's `PATH` marker
contributions followed by the concatenation, in root order, of the roots'
`bin` directories.  (Hence a later root's `env/PATH` directory precedes an
earlier root's `bin` directory, contrary to the claim as stated.) -/
theorem c8_order_amended (env : Env) (roots : List BPath) :
    link_dependency_library_paths env roots =
      specOrderedEnvPaths env "LIBRARY_PATH" roots ∧
    link_dependency_paths env roots =
      (specOrderedEnvPaths env "PATH" roots).map (fun ps => ps ++ binDirs env roots) := by
  constructor
  · unfold link_dependency_library_paths
    rw [envPathsAux_append]
    cases specOrderedEnvPaths env "LIBRARY_PATH" roots <;> simp [Except.map]
  · unfold link_dependency_paths
    rw [envPathsAux_append]
    cases specOrderedEnvPaths env "PATH" roots <;> simp [Except.map]

end Autowrap
